import Mathlib

/-!
# Orpheus CLI assistant: tool set, command handlers and conversation loop

A shallow embedding of `cli-tool/internal/tools/tools.go` and of
`cli-tool/main.go`.

* Go strings are modelled by `String`, read as sequences of code points
  (`String.data`); `string(output)` is the identity.
* Go `error` values are modelled by `GoError`.
* The operating system (process execution), the remote MCP catalog and the
  reasoning backend are oracles passed in as arguments; what the code does
  to them is recorded in explicit logs (`started`, `calls`, `out`).
-/

namespace Orpheus

/-! ## Go errors -/

/-- Go `error` values: a plain message, or a message wrapping a cause
(what `fmt.Errorf` builds without and with a `%w` verb). -/
inductive GoError where
  | errorString (s : String)
  | wrapError (msg : String) (err : GoError)
  deriving DecidableEq, Repr

/-- The `Error()` method: the text of an error. -/
def GoError.Error : GoError → String
  | .errorString s => s
  | .wrapError msg _ => msg

/-- The `Unwrap()` method: the wrapped cause, if any. -/
def GoError.Unwrap : GoError → Option GoError
  | .errorString _ => none
  | .wrapError _ err => some err

/-! ## `strings.Fields` -/

/-- Go `unicode.IsSpace`: in Latin-1 the characters tab, line feed, vertical
tab, form feed, carriage return, space, U+0085 and U+00A0; above Latin-1 the
code points with the White_Space property. -/
def isSpace (c : Char) : Bool :=
  let n := c.toNat
  n == 0x09 || n == 0x0A || n == 0x0B || n == 0x0C || n == 0x0D || n == 0x20 ||
  n == 0x85 || n == 0xA0 || n == 0x1680 || (0x2000 ≤ n && n ≤ 0x200A) ||
  n == 0x2028 || n == 0x2029 || n == 0x202F || n == 0x205F || n == 0x3000

/-- The scanning loop of `strings.Fields`: `cur` is the field being read,
most recent character first; a white space character closes a non-empty
field, and the end of the input closes the last one. -/
def fieldsAux : List Char → List Char → List (List Char)
  | [], cur => if cur.isEmpty then [] else [cur.reverse]
  | c :: cs, cur =>
    if isSpace c then
      if cur.isEmpty then fieldsAux cs [] else cur.reverse :: fieldsAux cs []
    else fieldsAux cs (c :: cur)

/-- Go `strings.Fields`: splits around each run of one or more white space
characters; the result is empty when the string has only white space. -/
def Fields (s : String) : List String :=
  (fieldsAux s.data []).map String.mk

/-! ## Tools and the command handlers (`tools.go`) -/

/-- Which function runs when a tool is invoked: one supplied by the remote
catalog, or one of the two closures defined in `AllOrpheusTools`. -/
inductive Handler where
  | remote
  | gcloud
  | linux
  deriving DecidableEq, Repr

/-- What the program uses of an `ai.Tool`: its name, its description and the
function behind it. -/
structure Tool where
  name : String
  description : String
  handler : Handler
  deriving DecidableEq, Repr

/-- What running a command with `exec.Command(name, args...)` and
`cmd.CombinedOutput()` gives: the captured combined output, the error (the
process could not be started, or it exited non-zero), and whether the
operating system started a process at all (`false` when the program is not
found on the path or the start fails). -/
structure ProcResult where
  output : String
  err : Option GoError
  spawned : Bool
  deriving DecidableEq, Repr

/-- The operating system as seen by `exec.Command(name, args...)` followed by
`CombinedOutput()`. -/
abbrev Exec := String → List String → ProcResult

/-- Everything a tool handler does: the pair it returns, the lines it prints
with `fmt.Println`, and in `started` the commands (program, arguments) it
runs with `exec.Command(...).CombinedOutput()`. Each is an attempt to start a
process: whether a process came of it is `ProcResult.spawned`. -/
structure HandlerOutcome where
  result : String
  err : Option GoError
  printed : List String
  started : List (String × List String)
  deriving DecidableEq, Repr

/-- The handler of `execute_gcloud_command` (tools.go lines 40-65). -/
def gcloudHandler (exec : Exec) (command : String) : HandlerOutcome :=
  match Fields command with
  | [] =>
    { result := "", err := some (.errorString "empty gcloud command"),
      printed := [command], started := [] }
  | p :: args =>
    if p ≠ "gcloud" then
      { result := "", err := some (.errorString "command must start with 'gcloud'"),
        printed := [command], started := [] }
    else
      let r := exec p args
      match r.err with
      | some e =>
        { result := "",
          err := some (.wrapError
            ("gcloud command error: " ++ e.Error ++ "\nOutput: " ++ r.output) e),
          printed := [command], started := [(p, args)] }
      | none =>
        { result := r.output, err := none, printed := [command], started := [(p, args)] }

/-- The handler of `execute_linux_command` (tools.go lines 70-90). -/
def linuxHandler (exec : Exec) (command : String) : HandlerOutcome :=
  match Fields command with
  | [] =>
    { result := "", err := some (.errorString "empty command"),
      printed := [command], started := [] }
  | p :: args =>
    let r := exec p args
    match r.err with
    | some e =>
      { result := "",
        err := some (.wrapError
          ("linux command error: " ++ e.Error ++ "\nOutput: " ++ r.output) e),
        printed := [command], started := [(p, args)] }
    | none =>
      { result := r.output, err := none, printed := [command], started := [(p, args)] }

/-- The tool registered by `genkit.DefineTool(g, "execute_gcloud_command", ...)`. -/
def gcloudTool : Tool :=
  { name := "execute_gcloud_command", description := "Execute Google Cloud CLI commands",
    handler := .gcloud }

/-- The tool registered by `genkit.DefineTool(g, "execute_linux_command", ...)`. -/
def linuxTool : Tool :=
  { name := "execute_linux_command", description := "Execute Linux system commands",
    handler := .linux }

/-- What the remote catalog does at startup: `mcp.NewGenkitMCPClient` fails,
or it succeeds and `GetActiveTools` fails, or both succeed and `tools ts`
holds the slice `ts` that `GetActiveTools` returns. -/
inductive RemoteOutcome where
  | connectError (e : GoError)
  | fetchError (e : GoError)
  | tools (ts : List Tool)
  deriving DecidableEq, Repr

/-- `AllOrpheusTools` (tools.go lines 15-97): an empty slice when the client
cannot be created or the catalog cannot be fetched, otherwise the remote
tools followed by the gcloud tool and the linux tool. -/
def AllOrpheusTools : RemoteOutcome → List Tool
  | .connectError _ => []
  | .fetchError _ => []
  | .tools ts => (ts ++ [gcloudTool]) ++ [linuxTool]

/-! ## Startup (`main.go` lines 19-49) -/

/-- How the process can stop abnormally: `log.Fatalf` with a message, or the
runtime panic of an index expression `a[index]` on a slice of `length`. -/
inductive Abort where
  | fatal (msg : String)
  | indexOutOfRange (index length : Nat)
  deriving DecidableEq, Repr

/-- One write of the program: `fmt.Print*` go to standard output, the builtin
`print`/`println` to standard error, `log.Printf` to the logger (its time
stamp is not modelled). -/
inductive Out where
  | stdout (s : String)
  | stderr (s : String)
  | log (s : String)
  deriving DecidableEq, Repr

/-- What the environment answers during startup: reading `./config.yml`,
`godotenv.Load()`, `genkit.Init` and the remote catalog. -/
structure StartupEnv where
  configFile : Except GoError String
  dotenv : Option GoError
  genkitInit : Option GoError
  remote : RemoteOutcome

/-- What `main` holds once line 49 has run. -/
structure Started where
  configContent : String
  tools : List Tool
  out : List Out
  deriving DecidableEq, Repr

/-- Lines 19-49 of `main`: read the configuration (fatal when it cannot be
read), load `.env` (a warning when it fails), initialise genkit (fatal when
it fails), build the tool set and print the name of `tools[0]`. -/
def startup (env : StartupEnv) : Except Abort Started :=
  match env.configFile with
  | .error e => .error (.fatal ("Failed to read config file: " ++ e.Error))
  | .ok configContent =>
    let out₁ : List Out :=
      match env.dotenv with
      | some e => [.log ("Warning: Failed to load .env file: " ++ e.Error)]
      | none => []
    match env.genkitInit with
    | some e => .error (.fatal ("could not initialize Genkit: " ++ e.Error))
    | none =>
      let tools := AllOrpheusTools env.remote
      match tools with
      | [] => .error (.indexOutOfRange 0 0)
      | t :: _ =>
        .ok { configContent := configContent, tools := tools,
              out := out₁ ++ [.stdout (t.name ++ "\n")] }

/-! ## The conversation loop (`main.go` lines 97-156) -/

/-- Message roles of genkit (`ai.RoleUser`, `ai.RoleModel`, ...). -/
inductive Role where
  | system
  | user
  | model
  | tool
  deriving DecidableEq, Repr

/-- An `ai.Part`; the program only builds text parts. -/
structure Part where
  text : String
  deriving DecidableEq, Repr

/-- An `ai.Message`: a role and its ordered content parts. -/
structure Message where
  role : Role
  content : List Part
  deriving DecidableEq, Repr

/-- The options handed to `genkit.Generate`: `system` is the argument of
`ai.WithSystem`, `messages` that of `ai.WithMessages` and `tools` that of
`ai.WithTools`. -/
structure Request where
  system : String
  messages : List Message
  tools : List Tool
  deriving DecidableEq, Repr

/-- A successful answer of `genkit.Generate`. The program reads only
`resp.Text()`. `toolResults` are the tool-result messages genkit produced
inside the call, one per tool it ran for the model; they stay in the
response and the program never reads them. -/
structure Response where
  text : String
  toolResults : List Message := []
  deriving DecidableEq, Repr

/-- The reasoning backend: its answer to a request, which may depend on how
many calls were made before. -/
abbrev Backend := Nat → Request → Except GoError Response

/-- One `scanner.Scan()`: `false` (end of input, with `scanner.Err()`), or
`true` with the line returned by `scanner.Text()`. -/
inductive Scan where
  | eof (err : Option GoError)
  | line (text : String)
  deriving DecidableEq, Repr

/-- The state carried around the loop: the message history, the calls of
`genkit.Generate` made so far, and what `main` itself has written (lines
printed by a tool handler while `genkit.Generate` runs are not part of it). -/
structure Session where
  messages : List Message
  calls : List Request
  out : List Out
  deriving DecidableEq, Repr

/-- How an iteration leaves the loop body: `continue` or `break`. -/
inductive Next where
  | again
  | done
  deriving DecidableEq, Repr

/-- The message built at lines 125-132 for an input line. -/
def userMessage (fullLine : String) : Message :=
  { role := .user, content := [{ text := fullLine }] }

/-- The message built at lines 148-155 from the response text. -/
def modelMessage (text : String) : Message :=
  { role := .model, content := [{ text := text }] }

/-- The request of lines 134-138, for the history `messages`. -/
def generateRequest (systemPrompt configContent : String) (tool0 : Tool)
    (messages : List Message) : Request :=
  { system := systemPrompt ++ "\n\nConfig File:\n" ++ configContent,
    messages := messages,
    tools := [tool0] }

/-- One iteration of the `for` loop of `main` (lines 103-156). -/
def loopIteration (systemPrompt configContent : String) (tools : List Tool)
    (backend : Backend) (s : Session) (input : Scan) : Except Abort (Next × Session) :=
  let s₁ : Session := { s with out := s.out ++ [.stderr "> "] }
  match input with
  | .eof (some e) =>
    .ok (.done, { s₁ with out := s₁.out ++ [.log ("Error reading input: " ++ e.Error)] })
  | .eof none => .ok (.done, s₁)
  | .line fullLine =>
    if fullLine = "" then .ok (.again, s₁)
    else if fullLine = "END" then
      .ok (.done, { s₁ with out := s₁.out ++ [.stderr "Exiting chat...\n"] })
    else
      let messages := s₁.messages ++ [userMessage fullLine]
      match tools with
      | [] => .error (.indexOutOfRange 0 0)
      | tool0 :: _ =>
        let req := generateRequest systemPrompt configContent tool0 messages
        match backend s₁.calls.length req with
        | .error e =>
          .ok (.again, { messages := messages, calls := s₁.calls ++ [req],
                         out := s₁.out ++ [.stdout ("Error: " ++ e.Error ++ "\n")] })
        | .ok resp =>
          .ok (.again, { messages := messages ++ [modelMessage resp.text],
                         calls := s₁.calls ++ [req],
                         out := s₁.out ++ [.stdout (resp.text ++ "\n")] })

/-- The `for` loop of `main` on the lines read from standard input; when
they are used up `scanner.Scan()` returns `false`, with error `eofErr`. -/
def conversationLoop (systemPrompt configContent : String) (tools : List Tool)
    (backend : Backend) (eofErr : Option GoError) : Session → List String → Except Abort Session
  | s, [] =>
    match loopIteration systemPrompt configContent tools backend s (.eof eofErr) with
    | .error a => .error a
    | .ok (_, s₁) => .ok s₁
  | s, l :: rest =>
    match loopIteration systemPrompt configContent tools backend s (.line l) with
    | .error a => .error a
    | .ok (.done, s₁) => .ok s₁
    | .ok (.again, s₁) =>
      conversationLoop systemPrompt configContent tools backend eofErr s₁ rest

/-- The session at line 101: no message, no call made. -/
def Session.initial (out : List Out) : Session :=
  { messages := [], calls := [], out := out }

/-! ## The system prompt and `main` (`main.go` lines 51-98) -/

/-- The raw string assigned to `systemPrompt` at lines 52-74, up to and
including the line `AVAILABLE TOOLS:`. -/
def preamble : String :=
  "You are an elite DevOps engineer, the absolute best in the world with unmatched expertise across the entire DevOps ecosystem. There is no DevOps challenge you cannot solve.\n" ++
  "\n" ++
  "CAPABILITIES:\n" ++
  "- Master-level expertise with Docker, Kubernetes, Terraform, Ansible, Jenkins, and CI/CD pipelines\n" ++
  "- READ the config file understand what do they want to do and execute it\n" ++
  "- Advanced monitoring and observability with Grafana, Prometheus, ELK stack, and Datadog\n" ++
  "- Complete command of GCP services including GKE, Cloud Run, Cloud Functions, and Cloud Build\n" ++
  "- Expert at GitHub operations, repositories, workflows, actions, and integrations\n" ++
  "- Deep knowledge of system architecture, networking, and security best practices\n" ++
  "- Full Linux system access through MCP tools to execute commands, save files, and access directories\n" ++
  "- Code review expertise across multiple languages with focus on performance and security\n" ++
  "- Infrastructure as Code (IaC) implementation and optimization\n" ++
  "- Ability to debug complex system issues and performance bottlenecks\n" ++
  "- Execute Git commands, GitHub API operations, and gcloud CLI commands with precision\n" ++
  "- Yoou have to ask what the user wants to do, If the user wants to create a vm and stuff take care of it, make the vm,\n" ++
  "- connect to it and do everything to get ssh and load the codes into it and so on\n" ++
  "- Based on the config file and the description of the software if the user wants a dockercontainer or file you have generate and store it on the repo via the github mcp!\n" ++
  "- If the user wants a workflow file then you have to build the whole workflow file and store it in the .github folder in the repo via the github mcp! and also if you want additional information you can ask the user to give tohse details and so on!\n" ++
  "- if the user just tells start, then just see the config file and whatever is selected just do it all thatsall\n" ++
  "-if they ask for health check i want you to use the linux command executor to send a curl get request to the health endpoint of the application\n" ++
  "\n" ++
  "AVAILABLE TOOLS:\n"

/-- The raw string appended at lines 81-95, from the empty line before
`GUIDELINES:` to the line `Config File:`. -/
def guidelines : String :=
  "\n" ++
  "GUIDELINES:\n" ++
  "- Always introduce yourself as the world's premier DevOps expert in your first response\n" ++
  "- Use your system access through MCP tools to save files, execute commands, and navigate directories when needed\n" ++
  "- Leverage your deep GCP expertise to solve any cloud-related challenges\n" ++
  "- When appropriate, use Docker, Kubernetes, and infrastructure tools to suggest optimal solutions\n" ++
  "- Proactively identify performance bottlenecks and security issues in code and infrastructure\n" ++
  "- Execute gcloud CLI commands with expert precision and handle any failures automatically\n" ++
  "- Format your responses with clear sections and, when appropriate, code blocks\n" ++
  "- If a command fails, analyze the issue and implement fixes without bothering the user\n" ++
  "- If user input is required to proceed, provide specific guidance on what's needed\n" ++
  "- You're not just an assistant - you're the ultimate DevOps problem solver with system-level access\n" ++
  "\n" ++
  "Config File:\n"

/-- The line added for one tool at lines 77-78. The second `%s` receives
`tool.Definition()`, a pointer to genkit's `ai.ToolDefinition`; how `fmt`
renders it depends on that struct, declared outside this repository, so the
rendering is the parameter `render`. -/
def toolLine (render : Tool → String) (tool : Tool) : String :=
  "- " ++ tool.name ++ ": Use this tool when you need to " ++ render tool ++ "\n"

/-- The value of `systemPrompt` after line 95: the preamble, one line per tool
added by the loop of lines 76-79, the guidelines and the configuration. -/
def buildSystemPrompt (render : Tool → String) (tools : List Tool)
    (configContent : String) : String :=
  tools.foldl (fun acc tool => acc ++ toolLine render tool) preamble
    ++ guidelines ++ configContent

/-- The whole of `main`: startup, the system prompt, the banner of line 98 and
the conversation loop on the lines of standard input. -/
def main (render : Tool → String) (env : StartupEnv) (backend : Backend)
    (eofErr : Option GoError) (lines : List String) : Except Abort Session :=
  match startup env with
  | .error a => .error a
  | .ok st =>
    conversationLoop (buildSystemPrompt render st.tools st.configContent) st.configContent
      st.tools backend eofErr
      (Session.initial (st.out ++ [.stderr "Enter prompts (type END to exit):\n"])) lines

/-- The processes a handler started: the commands it ran for which the
operating system started a process. -/
def processesStarted (exec : Exec) (o : HandlerOutcome) : List (String × List String) :=
  o.started.filter (fun c => (exec c.1 c.2).spawned)

/-- The system directive the backend receives with a request. genkit renders
the argument of `ai.WithSystem` once more, as a format string without
operands, before it sends it; that step is library code and is the
parameter `format`. -/
def directiveReceived (format : String → String) (r : Request) : String :=
  format r.system

/-- Number of tool-result messages in a history. -/
def toolResultCount (ms : List Message) : Nat :=
  (ms.filter (fun m => m.role == .tool)).length

/-! ## Facts about `strings.Fields` -/

theorem fieldsAux_eq_nil_iff (s cur : List Char) :
    fieldsAux s cur = [] ↔ cur = [] ∧ ∀ c ∈ s, isSpace c = true := by
  induction s generalizing cur with
  | nil => cases cur <;> simp [fieldsAux]
  | cons c cs ih =>
    by_cases hc : isSpace c = true
    · cases cur with
      | nil => simp [fieldsAux, hc, ih]
      | cons d ds => simp [fieldsAux, hc]
    · simp [fieldsAux, hc, ih]

theorem fieldsAux_token (s cur : List Char) (hcur : ∀ c ∈ cur, isSpace c = false) :
    ∀ t ∈ fieldsAux s cur, t ≠ [] ∧ ∀ c ∈ t, isSpace c = false := by
  induction s generalizing cur with
  | nil =>
    cases cur with
    | nil => simp [fieldsAux]
    | cons d ds =>
      intro t ht
      simp [fieldsAux] at ht
      subst ht
      refine ⟨by simp, ?_⟩
      intro c hc
      apply hcur
      simpa [or_comm] using hc
  | cons c cs ih =>
    intro t ht
    by_cases hc : isSpace c = true
    · cases cur with
      | nil =>
        simp [fieldsAux, hc] at ht
        exact ih [] (by simp) t ht
      | cons d ds =>
        simp [fieldsAux, hc] at ht
        rcases ht with ht | ht
        · subst ht
          refine ⟨by simp, ?_⟩
          intro c hc
          apply hcur
          simpa [or_comm] using hc
        · exact ih [] (by simp) t ht
    · simp [fieldsAux, hc] at ht
      refine ih (c :: cur) ?_ t ht
      intro x hx
      rcases List.mem_cons.1 hx with hx | hx
      · subst hx; simpa using hc
      · exact hcur x hx

theorem fieldsAux_flatten (s cur : List Char) :
    (fieldsAux s cur).flatten = cur.reverse ++ s.filter (fun c => !isSpace c) := by
  induction s generalizing cur with
  | nil => cases cur <;> simp [fieldsAux]
  | cons c cs ih =>
    by_cases hc : isSpace c = true
    · cases cur with
      | nil => simp [fieldsAux, hc, ih]
      | cons d ds => simp [fieldsAux, hc, ih]
    · simp [fieldsAux, hc, ih]

theorem fieldsAux_append_token (t rest cur : List Char) (ht : ∀ c ∈ t, isSpace c = false) :
    fieldsAux (t ++ rest) cur = fieldsAux rest (t.reverse ++ cur) := by
  induction t generalizing cur with
  | nil => simp
  | cons c cs ih =>
    have hc : isSpace c = false := ht c (by simp)
    have := ih (c :: cur) (fun x hx => ht x (by simp [hx]))
    simp [fieldsAux, hc, this]

theorem fieldsAux_intercalate (ts : List (List Char))
    (hts : ∀ t ∈ ts, t ≠ [] ∧ ∀ c ∈ t, isSpace c = false) :
    fieldsAux ([' '].intercalate ts) [] = ts := by
  induction ts with
  | nil => simp [List.intercalate, fieldsAux]
  | cons t ts ih =>
    have ht := hts t (by simp)
    have hts2 : ∀ u ∈ ts, u ≠ [] ∧ ∀ c ∈ u, isSpace c = false :=
      fun u hu => hts u (by simp [hu])
    cases ts with
    | nil =>
      have h := fieldsAux_append_token t [] [] ht.2
      simp [List.intercalate] at h ⊢
      rw [h]
      simp [fieldsAux, ht.1]
    | cons u us =>
      have h := fieldsAux_append_token t (' ' :: [' '].intercalate (u :: us)) [] ht.2
      have e : [' '].intercalate (t :: u :: us) = t ++ ' ' :: [' '].intercalate (u :: us) := by
        simp [List.intercalate]
      rw [e, h]
      have hsp : isSpace ' ' = true := by decide
      simp [fieldsAux, hsp, ht.1, ih hts2]

theorem Fields_eq_nil_iff (s : String) :
    Fields s = [] ↔ ∀ c ∈ s.data, isSpace c = true := by
  simp [Fields, fieldsAux_eq_nil_iff]

theorem Fields_token (s : String) :
    ∀ t ∈ Fields s, t ≠ "" ∧ ∀ c ∈ t.data, isSpace c = false := by
  intro t ht
  simp only [Fields, List.mem_map] at ht
  obtain ⟨u, hu, rfl⟩ := ht
  have h := fieldsAux_token s.data [] (by simp) u hu
  refine ⟨?_, h.2⟩
  intro hcontra
  exact h.1 (congrArg String.data hcontra)

theorem Fields_flatten (s : String) :
    ((Fields s).map String.data).flatten = s.data.filter (fun c => !isSpace c) := by
  have h := fieldsAux_flatten s.data []
  simp only [List.reverse_nil, List.nil_append] at h
  rw [← h, Fields, List.map_map]
  congr 1
  exact List.map_id _

theorem intercalate_go_data (sep acc : String) (l : List String) :
    (String.intercalate.go acc sep l).data
      = acc.data ++ (l.map (fun t => sep.data ++ t.data)).flatten := by
  induction l generalizing acc with
  | nil => simp [String.intercalate.go]
  | cons a as ih => simp [String.intercalate.go, ih, String.data_append]

theorem intercalate_data (sep : String) (l : List String) :
    (sep.intercalate l).data = sep.data.intercalate (l.map String.data) := by
  cases l with
  | nil => simp [String.intercalate, List.intercalate]
  | cons a as =>
    simp only [String.intercalate, intercalate_go_data]
    induction as generalizing a with
    | nil => simp [List.intercalate]
    | cons b bs ih =>
      have := ih b
      simp [List.intercalate] at this ⊢
      rw [this]

theorem Fields_intercalate (ts : List String)
    (hts : ∀ t ∈ ts, t ≠ "" ∧ ∀ c ∈ t.data, isSpace c = false) :
    Fields (" ".intercalate ts) = ts := by
  have h := fieldsAux_intercalate (ts.map String.data) (by
    intro t ht
    simp only [List.mem_map] at ht
    obtain ⟨u, hu, rfl⟩ := ht
    refine ⟨?_, (hts u hu).2⟩
    intro hcontra
    exact (hts u hu).1 (String.ext hcontra))
  have e : (" ".intercalate ts).data = [' '].intercalate (ts.map String.data) :=
    intercalate_data " " ts
  rw [Fields, e, h, List.map_map]
  exact List.map_id _


/-! ## The tool set of `AllOrpheusTools` -/

/-- C1, as stated, fails: when the remote catalog cannot be reached the
returned tool set does not hold the two local tools; it holds no tool. -/
theorem C1_counterexample :
    (AllOrpheusTools (.connectError (.errorString "connection refused"))).map Tool.name
        ≠ ["execute_gcloud_command", "execute_linux_command"]
      ∧ gcloudTool ∉ AllOrpheusTools (.connectError (.errorString "connection refused"))
      ∧ linuxTool ∉ AllOrpheusTools (.connectError (.errorString "connection refused")) := by
  decide

/-- C1 (amended): when connecting or fetching the tool list fails, the tool
set returned by `AllOrpheusTools` is empty; the two local tools are returned,
after the remote ones, whenever the catalog answers, and they are the whole
tool set, by name, when it answers with an empty list. -/
theorem C1_failure_returns_empty (e : GoError) :
    AllOrpheusTools (.connectError e) = []
      ∧ AllOrpheusTools (.fetchError e) = []
      ∧ (∀ ts, AllOrpheusTools (.tools ts) = ts ++ [gcloudTool, linuxTool])
      ∧ (AllOrpheusTools (.tools [])).map Tool.name
          = ["execute_gcloud_command", "execute_linux_command"] := by
  refine ⟨rfl, rfl, ?_, rfl⟩
  intro ts
  simp [AllOrpheusTools]

/-- C2: the claim is that startup never aborts on a failed tool source; the
code aborts. With the configuration read and genkit initialised, a remote
catalog that fails to connect or to answer makes `tools[0]` panic with an
index out of range, while every successful catalog, the empty one included,
lets startup complete with the remote tools followed by the local ones. -/
theorem C2_startup_panics_on_failed_source (config : String) (dotenv : Option GoError)
    (e : GoError) :
    startup (StartupEnv.mk (.ok config) dotenv none (.connectError e))
        = .error (.indexOutOfRange 0 0)
      ∧ startup (StartupEnv.mk (.ok config) dotenv none (.fetchError e))
        = .error (.indexOutOfRange 0 0)
      ∧ ∀ ts, ∃ st, startup (StartupEnv.mk (.ok config) dotenv none (.tools ts)) = .ok st
          ∧ st.tools = ts ++ [gcloudTool, linuxTool] := by
  refine ⟨rfl, rfl, ?_⟩
  intro ts
  cases ts with
  | nil => exact ⟨_, rfl, rfl⟩
  | cons t ts => exact ⟨_, rfl, by simp [AllOrpheusTools]⟩

/-! ## The command handlers -/

/-- C3: a command has no token exactly when all its characters are white
space (the empty string included), and then both handlers return the empty
result with their empty-command error and start no process. -/
theorem C3_empty_command (exec : Exec) (command : String) (h : Fields command = []) :
    (∀ c ∈ command.data, isSpace c = true)
      ∧ (∀ s : String, (∀ c ∈ s.data, isSpace c = true) → Fields s = [])
      ∧ gcloudHandler exec command
          = { result := "", err := some (.errorString "empty gcloud command"),
              printed := [command], started := [] }
      ∧ linuxHandler exec command
          = { result := "", err := some (.errorString "empty command"),
              printed := [command], started := [] } := by
  refine ⟨(Fields_eq_nil_iff command).1 h, fun s hs => (Fields_eq_nil_iff s).2 hs, ?_, ?_⟩
  · simp [gcloudHandler, h]
  · simp [linuxHandler, h]

/-- Witness of C3 at a command made of a space, a tab and a line feed. -/
theorem C3_empty_command_witness :
    Fields " \t\n" = []
      ∧ gcloudHandler (fun _ _ => ⟨"ran", none, true⟩) " \t\n"
          = { result := "", err := some (.errorString "empty gcloud command"),
              printed := [" \t\n"], started := [] }
      ∧ linuxHandler (fun _ _ => ⟨"ran", none, true⟩) " \t\n"
          = { result := "", err := some (.errorString "empty command"),
              printed := [" \t\n"], started := [] } :=
  have h := C3_empty_command (fun _ _ => ⟨"ran", none, true⟩) " \t\n" (by decide)
  ⟨by decide, h.2.2.1, h.2.2.2⟩

/-- C4: on a command whose first token is not `gcloud` the gcloud handler
returns the empty result with the invalid-prefix error and starts no
process; on a command whose first token is `gcloud` it runs the command and
what it returns is not that error, nor an error with that text. -/
theorem C4_gcloud_first_token (exec : Exec) (command p : String) (args : List String)
    (h : Fields command = p :: args) :
    (p ≠ "gcloud" →
        gcloudHandler exec command
          = { result := "", err := some (.errorString "command must start with 'gcloud'"),
              printed := [command], started := [] })
      ∧ (p = "gcloud" →
          (gcloudHandler exec command).started = [("gcloud", args)]
            ∧ ∀ err, (gcloudHandler exec command).err = some err →
                err ≠ .errorString "command must start with 'gcloud'"
                  ∧ err.Error ≠ "command must start with 'gcloud'") := by
  constructor
  · intro hp
    simp [gcloudHandler, h, hp]
  · intro hp
    subst hp
    cases hr : (exec "gcloud" args).err with
    | none => simp [gcloudHandler, h, hr]
    | some e =>
      simp only [gcloudHandler, h, hr]
      refine ⟨by simp, ?_⟩
      intro err herr
      simp at herr
      subst herr
      refine ⟨by simp, ?_⟩
      intro hcontra
      have := congrArg String.data hcontra
      simp [GoError.Error, String.data_append] at this

/-- Witness of C4 at the commands `notgcloud foo` and `gcloud info`. -/
theorem C4_gcloud_first_token_witness :
    gcloudHandler (fun _ _ => ⟨"ran", none, true⟩) "notgcloud foo"
        = { result := "", err := some (.errorString "command must start with 'gcloud'"),
            printed := ["notgcloud foo"], started := [] }
      ∧ (gcloudHandler (fun _ _ => ⟨"ran", none, true⟩) "gcloud info").started
          = [("gcloud", ["info"])] :=
  ⟨(C4_gcloud_first_token (fun _ _ => ⟨"ran", none, true⟩) "notgcloud foo" "notgcloud" ["foo"]
      (by decide)).1 (by decide),
   ((C4_gcloud_first_token (fun _ _ => ⟨"ran", none, true⟩) "gcloud info" "gcloud" ["info"]
      (by decide)).2 rfl).1⟩


/-- C5, as stated, fails: `nosuchprog_xyz` is not on the path, so for the
command `nosuchprog_xyz arg` the linux handler makes its one attempt, no
process is started, and it returns the error of the failed start. -/
theorem C5_counterexample :
    linuxHandler
        (fun _ _ => ⟨"",
          some (.errorString "exec: \"nosuchprog_xyz\": executable file not found in $PATH"),
          false⟩)
        "nosuchprog_xyz arg"
      = { result := "",
          err := some (.wrapError
            ("linux command error: "
              ++ "exec: \"nosuchprog_xyz\": executable file not found in $PATH"
              ++ "\nOutput: ")
            (.errorString "exec: \"nosuchprog_xyz\": executable file not found in $PATH")),
          printed := ["nosuchprog_xyz arg"], started := [("nosuchprog_xyz", ["arg"])] }
      ∧ processesStarted
          (fun _ _ => ⟨"",
            some (.errorString "exec: \"nosuchprog_xyz\": executable file not found in $PATH"),
            false⟩)
          (linuxHandler
            (fun _ _ => ⟨"",
              some (.errorString "exec: \"nosuchprog_xyz\": executable file not found in $PATH"),
              false⟩)
            "nosuchprog_xyz arg") = [] := by
  decide

/-- C5 (amended): on a command with at least one token the linux handler
makes exactly one attempt to run a program, the first token with the
remaining tokens as arguments, whatever the first token is, and what it
returns is the outcome of that attempt. One process is started when the
operating system can start the program and none when it cannot. The tokens
are the command with its white space removed, nothing else changed (so quote
characters stay where they are); no token is empty or contains white space;
joining them with single spaces and splitting again gives the same tokens. -/
theorem C5_linux_runs_tokens (exec : Exec) (command p : String) (args : List String)
    (h : Fields command = p :: args) :
    linuxHandler exec command
        = { result := (match (exec p args).err with
              | some _ => ""
              | none => (exec p args).output),
            err := (exec p args).err.map (fun e => GoError.wrapError
              ("linux command error: " ++ e.Error ++ "\nOutput: " ++ (exec p args).output) e),
            printed := [command], started := [(p, args)] }
      ∧ processesStarted exec (linuxHandler exec command)
          = (if (exec p args).spawned then [(p, args)] else [])
      ∧ (∀ t ∈ p :: args, t ≠ "" ∧ ∀ c ∈ t.data, isSpace c = false)
      ∧ ((p :: args).map String.data).flatten = command.data.filter (fun c => !isSpace c)
      ∧ Fields (" ".intercalate (p :: args)) = p :: args := by
  have htok : ∀ t ∈ p :: args, t ≠ "" ∧ ∀ c ∈ t.data, isSpace c = false := by
    rw [← h]
    exact Fields_token command
  refine ⟨?_, ?_, htok, ?_, Fields_intercalate (p :: args) htok⟩
  · cases hr : (exec p args).err <;> simp [linuxHandler, h, hr]
  · cases hr : (exec p args).err <;> cases hs : (exec p args).spawned <;>
      simp [processesStarted, linuxHandler, h, hr, hs]
  · rw [← h]
    exact Fields_flatten command

/-- Witness of C5: `nosuchprog_xyz foo` on a system where that program cannot
be started, and a command with quotes that runs. -/
theorem C5_linux_runs_tokens_witness :
    processesStarted
        (fun _ _ => ⟨"",
          some (.errorString "exec: \"nosuchprog_xyz\": executable file not found in $PATH"),
          false⟩)
        (linuxHandler
          (fun _ _ => ⟨"",
            some (.errorString "exec: \"nosuchprog_xyz\": executable file not found in $PATH"),
            false⟩)
          "nosuchprog_xyz foo") = []
      ∧ processesStarted (fun _ _ => ⟨"a b\n", none, true⟩)
          (linuxHandler (fun _ _ => ⟨"a b\n", none, true⟩) "echo  'a b'")
        = [("echo", ["'a", "b'"])] :=
  ⟨(C5_linux_runs_tokens
      (fun _ _ => ⟨"",
        some (.errorString "exec: \"nosuchprog_xyz\": executable file not found in $PATH"),
        false⟩)
      "nosuchprog_xyz foo" "nosuchprog_xyz" ["foo"] (by decide)).2.1,
   (C5_linux_runs_tokens (fun _ _ => ⟨"a b\n", none, true⟩) "echo  'a b'" "echo" ["'a", "b'"]
      (by decide)).2.1⟩

/-- C6: when the process of a validated command fails with error `e` and
combined output `o`, each handler returns the empty result together with an
error that wraps `e` and whose text is its fixed prefix, the text of `e`,
a line break with `Output: `, and `o`; so the text contains both the text of
`e` and the whole of `o`. -/
theorem C6_process_failure (exec : Exec) (command p : String) (args : List String)
    (e : GoError) (h : Fields command = p :: args) (he : (exec p args).err = some e) :
    (linuxHandler exec command).result = ""
      ∧ (∃ err, (linuxHandler exec command).err = some err
          ∧ err.Unwrap = some e
          ∧ err.Error = "linux command error: " ++ e.Error ++ "\nOutput: "
              ++ (exec p args).output
          ∧ (∃ a b, err.Error = a ++ e.Error ++ b)
          ∧ (∃ a b, err.Error = a ++ (exec p args).output ++ b))
      ∧ (p = "gcloud" →
          (gcloudHandler exec command).result = ""
            ∧ ∃ err, (gcloudHandler exec command).err = some err
              ∧ err.Unwrap = some e
              ∧ err.Error = "gcloud command error: " ++ e.Error ++ "\nOutput: "
                  ++ (exec p args).output
              ∧ (∃ a b, err.Error = a ++ e.Error ++ b)
              ∧ (∃ a b, err.Error = a ++ (exec p args).output ++ b)) := by
  refine ⟨by simp [linuxHandler, h, he], ?_, ?_⟩
  · refine ⟨.wrapError ("linux command error: " ++ e.Error ++ "\nOutput: "
        ++ (exec p args).output) e, by simp [linuxHandler, h, he], rfl, rfl, ?_, ?_⟩
    · exact ⟨"linux command error: ", "\nOutput: " ++ (exec p args).output, by
        simp [GoError.Error, String.append_assoc]⟩
    · exact ⟨"linux command error: " ++ e.Error ++ "\nOutput: ", "", by
        simp [GoError.Error]⟩
  · intro hp
    subst hp
    refine ⟨by simp [gcloudHandler, h, he], ?_⟩
    refine ⟨.wrapError ("gcloud command error: " ++ e.Error ++ "\nOutput: "
        ++ (exec "gcloud" args).output) e, by simp [gcloudHandler, h, he], rfl, rfl, ?_, ?_⟩
    · exact ⟨"gcloud command error: ", "\nOutput: " ++ (exec "gcloud" args).output, by
        simp [GoError.Error, String.append_assoc]⟩
    · exact ⟨"gcloud command error: " ++ e.Error ++ "\nOutput: ", "", by
        simp [GoError.Error]⟩

/-- Witness of C6: `gcloud nosuch` exits with status 1 after writing a line. -/
theorem C6_process_failure_witness :
    (gcloudHandler (fun _ _ => ⟨"ERROR: invalid choice\n", some (.errorString "exit status 1"), true⟩)
        "gcloud nosuch").result = ""
      ∧ (gcloudHandler (fun _ _ => ⟨"ERROR: invalid choice\n", some (.errorString "exit status 1"), true⟩)
        "gcloud nosuch").err
          = some (.wrapError "gcloud command error: exit status 1\nOutput: ERROR: invalid choice\n"
              (.errorString "exit status 1")) :=
  have h := (C6_process_failure
    (fun _ _ => ⟨"ERROR: invalid choice\n", some (.errorString "exit status 1"), true⟩)
    "gcloud nosuch" "gcloud" ["nosuch"] (.errorString "exit status 1") (by decide) rfl).2.2 rfl
  ⟨h.1, by decide⟩

/-- C7: when the process of a validated command succeeds with combined
output `o`, each handler returns exactly `o` and no error. -/
theorem C7_process_success (exec : Exec) (command p : String) (args : List String)
    (h : Fields command = p :: args) (hok : (exec p args).err = none) :
    linuxHandler exec command
        = { result := (exec p args).output, err := none,
            printed := [command], started := [(p, args)] }
      ∧ (p = "gcloud" →
          gcloudHandler exec command
            = { result := (exec p args).output, err := none,
                printed := [command], started := [(p, args)] }) := by
  refine ⟨by simp [linuxHandler, h, hok], ?_⟩
  intro hp
  subst hp
  simp [gcloudHandler, h, hok]

/-- Witness of C7: output with leading and trailing white space comes back
unchanged. -/
theorem C7_process_success_witness :
    (linuxHandler (fun _ _ => ⟨"  a\tb \n\n", none, true⟩) "echo x").result = "  a\tb \n\n"
      ∧ (gcloudHandler (fun _ _ => ⟨"  a\tb \n\n", none, true⟩) "gcloud info").result
          = "  a\tb \n\n" :=
  have h₁ := C7_process_success (fun _ _ => ⟨"  a\tb \n\n", none, true⟩) "echo x" "echo" ["x"]
    (by decide) rfl
  have h₂ := C7_process_success (fun _ _ => ⟨"  a\tb \n\n", none, true⟩) "gcloud info" "gcloud"
    ["info"] (by decide) rfl
  ⟨by rw [h₁.1], by rw [h₂.2 rfl]⟩


/-! ## The conversation loop -/

theorem loopIteration_ok_extends (systemPrompt configContent : String) (tool0 : Tool)
    (rest : List Tool) (backend : Backend) (s : Session) (input : Scan) :
    ∃ n s₁, loopIteration systemPrompt configContent (tool0 :: rest) backend s input
        = .ok (n, s₁) ∧ s.messages <+: s₁.messages := by
  cases input with
  | eof err =>
    cases err with
    | none => exact ⟨_, _, rfl, List.prefix_refl _⟩
    | some e => exact ⟨_, _, rfl, List.prefix_refl _⟩
  | line l =>
    by_cases h₁ : l = ""
    · simp only [loopIteration, h₁, if_true]
      exact ⟨_, _, rfl, List.prefix_refl _⟩
    · by_cases h₂ : l = "END"
      · simp only [loopIteration, h₁, h₂, if_true, if_false]
        exact ⟨_, _, rfl, List.prefix_refl _⟩
      · cases hb : backend s.calls.length
            (generateRequest systemPrompt configContent tool0 (s.messages ++ [userMessage l])) with
        | error e =>
          simp only [loopIteration, h₁, h₂, hb, if_false]
          exact ⟨_, _, rfl, List.prefix_append _ _⟩
        | ok resp =>
          simp only [loopIteration, h₁, h₂, hb, if_false]
          refine ⟨_, _, rfl, ?_⟩
          simp only [List.append_assoc]
          exact List.prefix_append _ _

theorem conversationLoop_ok_extends (systemPrompt configContent : String) (tool0 : Tool)
    (rest : List Tool) (backend : Backend) (eofErr : Option GoError) (lines : List String) :
    ∀ s : Session, ∃ sf,
      conversationLoop systemPrompt configContent (tool0 :: rest) backend eofErr s lines = .ok sf
        ∧ s.messages <+: sf.messages := by
  induction lines with
  | nil =>
    intro s
    obtain ⟨n, s₁, h, hp⟩ :=
      loopIteration_ok_extends systemPrompt configContent tool0 rest backend s (.eof eofErr)
    exact ⟨s₁, by simp [conversationLoop, h], hp⟩
  | cons l ls ih =>
    intro s
    obtain ⟨n, s₁, h, hp⟩ :=
      loopIteration_ok_extends systemPrompt configContent tool0 rest backend s (.line l)
    cases n with
    | done => exact ⟨s₁, by simp [conversationLoop, h], hp⟩
    | again =>
      obtain ⟨sf, hf, hpf⟩ := ih s₁
      exact ⟨sf, by simp [conversationLoop, h, hf], hp.trans hpf⟩

/-- C8: when the backend call of a turn fails, the iteration ends with the
history `h` followed by the user message of the line, nothing else added,
the error written to standard output, and the loop goes on with the next
line from that state. -/
theorem C8_backend_failure_keeps_user_message (systemPrompt configContent : String)
    (tool0 : Tool) (rest : List Tool) (backend : Backend) (eofErr : Option GoError)
    (s : Session) (l : String) (e : GoError) (later : List String)
    (hne : l ≠ "") (hend : l ≠ "END")
    (hfail : backend s.calls.length
      (generateRequest systemPrompt configContent tool0 (s.messages ++ [userMessage l]))
        = .error e) :
    loopIteration systemPrompt configContent (tool0 :: rest) backend s (.line l)
        = .ok (.again,
            { messages := s.messages ++ [userMessage l],
              calls := s.calls ++
                [generateRequest systemPrompt configContent tool0 (s.messages ++ [userMessage l])],
              out := s.out ++ [.stderr "> ", .stdout ("Error: " ++ e.Error ++ "\n")] })
      ∧ conversationLoop systemPrompt configContent (tool0 :: rest) backend eofErr s (l :: later)
        = conversationLoop systemPrompt configContent (tool0 :: rest) backend eofErr
            { messages := s.messages ++ [userMessage l],
              calls := s.calls ++
                [generateRequest systemPrompt configContent tool0 (s.messages ++ [userMessage l])],
              out := s.out ++ [.stderr "> ", .stdout ("Error: " ++ e.Error ++ "\n")] }
            later := by
  have h : loopIteration systemPrompt configContent (tool0 :: rest) backend s (.line l)
        = .ok (.again,
            { messages := s.messages ++ [userMessage l],
              calls := s.calls ++
                [generateRequest systemPrompt configContent tool0 (s.messages ++ [userMessage l])],
              out := s.out ++ [.stderr "> ", .stdout ("Error: " ++ e.Error ++ "\n")] }) := by
    simp [loopIteration, hne, hend, hfail]
  exact ⟨h, by rw [conversationLoop, h]⟩

/-- Witness of C8: the backend is unreachable; the line `list my repos` stays
in the history and the following line is read. -/
theorem C8_backend_failure_keeps_user_message_witness :
    conversationLoop "sys" "cfg" [gcloudTool, linuxTool]
        (fun _ _ => .error (.errorString "unavailable")) none (Session.initial [])
        ["list my repos", "END"]
      = .ok { messages := [userMessage "list my repos"],
              calls := [generateRequest "sys" "cfg" gcloudTool [userMessage "list my repos"]],
              out := [.stderr "> ", .stdout "Error: unavailable\n", .stderr "> ",
                      .stderr "Exiting chat...\n"] } :=
  (C8_backend_failure_keeps_user_message "sys" "cfg" gcloudTool [linuxTool]
    (fun _ _ => .error (.errorString "unavailable")) none (Session.initial [])
    "list my repos" (.errorString "unavailable") ["END"] (by decide) (by decide) rfl).2.trans
    rfl


/-- C9: the input step. On the empty line nothing changes but the prompt
written, no backend call is made and the loop reads the next line; on `END`
the loop ends with the history and the calls unchanged, whatever lines
follow; on any other line the user message, one text part equal to the line,
is appended to the history and the request then sent to the backend carries
the history with that message at its end. -/
theorem C9_input_step (systemPrompt configContent : String) (tool0 : Tool)
    (rest : List Tool) (backend : Backend) (eofErr : Option GoError) (s : Session)
    (l : String) (later : List String) :
    (l = "" →
        loopIteration systemPrompt configContent (tool0 :: rest) backend s (.line l)
          = .ok (.again, { messages := s.messages, calls := s.calls,
                           out := s.out ++ [.stderr "> "] })
        ∧ conversationLoop systemPrompt configContent (tool0 :: rest) backend eofErr s
            (l :: later)
          = conversationLoop systemPrompt configContent (tool0 :: rest) backend eofErr
              { messages := s.messages, calls := s.calls, out := s.out ++ [.stderr "> "] }
              later)
      ∧ (l = "END" →
        loopIteration systemPrompt configContent (tool0 :: rest) backend s (.line l)
          = .ok (.done, { messages := s.messages, calls := s.calls,
                          out := s.out ++ [.stderr "> ", .stderr "Exiting chat...\n"] })
        ∧ conversationLoop systemPrompt configContent (tool0 :: rest) backend eofErr s
            (l :: later)
          = .ok { messages := s.messages, calls := s.calls,
                  out := s.out ++ [.stderr "> ", .stderr "Exiting chat...\n"] })
      ∧ (l ≠ "" → l ≠ "END" →
        ∃ s₁, loopIteration systemPrompt configContent (tool0 :: rest) backend s (.line l)
            = .ok (.again, s₁)
          ∧ s₁.calls = s.calls ++
              [generateRequest systemPrompt configContent tool0
                (s.messages ++ [{ role := .user, content := [{ text := l }] }])]
          ∧ s.messages ++ [{ role := .user, content := [{ text := l }] }] <+: s₁.messages) := by
  refine ⟨?_, ?_, ?_⟩
  · intro h
    subst h
    have h₁ : loopIteration systemPrompt configContent (tool0 :: rest) backend s (.line "")
          = .ok (.again, { messages := s.messages, calls := s.calls,
                           out := s.out ++ [.stderr "> "] }) := by
      simp [loopIteration]
    exact ⟨h₁, by rw [conversationLoop, h₁]⟩
  · intro h
    subst h
    have h₁ : loopIteration systemPrompt configContent (tool0 :: rest) backend s (.line "END")
          = .ok (.done, { messages := s.messages, calls := s.calls,
                          out := s.out ++ [.stderr "> ", .stderr "Exiting chat...\n"] }) := by
      simp [loopIteration]
    exact ⟨h₁, by rw [conversationLoop, h₁]⟩
  · intro h₁ h₂
    cases hb : backend s.calls.length
        (generateRequest systemPrompt configContent tool0 (s.messages ++ [userMessage l])) with
    | error e =>
      simp only [loopIteration, h₁, h₂, hb, if_false]
      exact ⟨_, rfl, rfl, List.prefix_refl _⟩
    | ok resp =>
      simp only [loopIteration, h₁, h₂, hb, if_false]
      exact ⟨_, rfl, rfl, List.prefix_append _ _⟩

/-- Witness of C9: an empty line, then a question, then `END`, then a line
that is never read. -/
theorem C9_input_step_witness :
    conversationLoop "sys" "cfg" [gcloudTool, linuxTool]
        (fun _ _ => .ok { text := "You have 3 repos." }) none (Session.initial [])
        ["", "list my repos", "END", "never read"]
      = .ok { messages := [userMessage "list my repos", modelMessage "You have 3 repos."],
              calls := [generateRequest "sys" "cfg" gcloudTool [userMessage "list my repos"]],
              out := [.stderr "> ", .stderr "> ", .stdout "You have 3 repos.\n", .stderr "> ",
                      .stderr "Exiting chat...\n"] } :=
  (((C9_input_step "sys" "cfg" gcloudTool [linuxTool]
      (fun _ _ => .ok { text := "You have 3 repos." }) none (Session.initial []) ""
      ["list my repos", "END", "never read"]).1 rfl).2).trans rfl

/-- C10: when the backend answers a turn with final text `t`, the iteration
ends with the history `h` followed by the user message of the line and one
model message with the single text part `t`, and `t` is what is printed.
Whatever the input and the backend do, an iteration and the whole loop
complete with a history that extends the one they started from. -/
theorem C10_final_answer_appended (systemPrompt configContent : String)
    (tool0 : Tool) (rest : List Tool) (backend : Backend) (s : Session) (l : String)
    (resp : Response) (hne : l ≠ "") (hend : l ≠ "END")
    (hok : backend s.calls.length
      (generateRequest systemPrompt configContent tool0 (s.messages ++ [userMessage l]))
        = .ok resp) :
    loopIteration systemPrompt configContent (tool0 :: rest) backend s (.line l)
        = .ok (.again,
            { messages := s.messages ++
                [{ role := .user, content := [{ text := l }] },
                 { role := .model, content := [{ text := resp.text }] }],
              calls := s.calls ++
                [generateRequest systemPrompt configContent tool0 (s.messages ++ [userMessage l])],
              out := s.out ++ [.stderr "> ", .stdout (resp.text ++ "\n")] })
      ∧ (∀ (b : Backend) (s₀ : Session) (input : Scan), ∃ n s₁,
          loopIteration systemPrompt configContent (tool0 :: rest) b s₀ input = .ok (n, s₁)
            ∧ s₀.messages <+: s₁.messages)
      ∧ (∀ (b : Backend) (eofErr : Option GoError) (s₀ : Session) (lines : List String), ∃ sf,
          conversationLoop systemPrompt configContent (tool0 :: rest) b eofErr s₀ lines = .ok sf
            ∧ s₀.messages <+: sf.messages) := by
  refine ⟨?_, ?_, ?_⟩
  · simp only [loopIteration, hne, hend, hok, if_false]
    simp [userMessage, modelMessage]
  · intro b s₀ input
    exact loopIteration_ok_extends systemPrompt configContent tool0 rest b s₀ input
  · intro b eofErr s₀ lines
    exact conversationLoop_ok_extends systemPrompt configContent tool0 rest b eofErr lines s₀

/-- Witness of C10: one earlier exchange in the history, then a question
that the backend answers. -/
theorem C10_final_answer_appended_witness :
    loopIteration "sys" "cfg" [gcloudTool, linuxTool]
        (fun _ _ => .ok { text := "You have 3 repos." })
        { messages := [userMessage "hi", modelMessage "hello"], calls := [], out := [] }
        (.line "list my repos")
      = .ok (.again,
          { messages := [userMessage "hi", modelMessage "hello"] ++
              [{ role := .user, content := [{ text := "list my repos" }] },
               { role := .model, content := [{ text := "You have 3 repos." }] }],
            calls := [] ++ [generateRequest "sys" "cfg" gcloudTool
              ([userMessage "hi", modelMessage "hello"] ++ [userMessage "list my repos"])],
            out := [] ++ [.stderr "> ", .stdout ("You have 3 repos." ++ "\n")] }) :=
  (C10_final_answer_appended "sys" "cfg" gcloudTool [linuxTool]
    (fun _ _ => .ok { text := "You have 3 repos." })
    { messages := [userMessage "hi", modelMessage "hello"], calls := [], out := [] }
    "list my repos" { text := "You have 3 repos." } (by decide) (by decide) rfl).1


/-! ## Requests, directive and tool set over a whole session -/

theorem foldl_append_eq (init : String) (l : List String) :
    l.foldl (fun r s => r ++ s) init = init ++ String.join l := by
  induction l generalizing init with
  | nil => simp [String.join]
  | cons a as ih =>
    have h₁ := ih (init ++ a)
    have h₂ := ih ("" ++ a)
    simp only [List.foldl_cons, String.join] at h₁ h₂ ⊢
    rw [h₁, h₂]
    simp [String.append_assoc]

theorem foldl_toolLine (render : Tool → String) (tools : List Tool) (init : String) :
    tools.foldl (fun acc tool => acc ++ toolLine render tool) init
      = init ++ String.join (tools.map (toolLine render)) := by
  rw [← foldl_append_eq, List.foldl_map]

theorem append_ne_self (a b : String) (hb : b ≠ "") : a ++ b ≠ a := by
  intro h
  apply hb
  have hd := congrArg String.data h
  rw [String.data_append] at hd
  exact String.ext (by simpa using hd)

theorem loopIteration_ok_calls (systemPrompt configContent : String) (tool0 : Tool)
    (rest : List Tool) (backend : Backend) (s : Session) (input : Scan) :
    ∃ n s₁ added sent,
      loopIteration systemPrompt configContent (tool0 :: rest) backend s input = .ok (n, s₁)
        ∧ s₁.messages = s.messages ++ added
        ∧ (∀ m ∈ added, m.role = .user ∨ m.role = .model)
        ∧ s₁.calls = s.calls ++ sent
        ∧ ∀ r ∈ sent, r.system = systemPrompt ++ "\n\nConfig File:\n" ++ configContent
            ∧ r.tools = [tool0] := by
  cases input with
  | eof err =>
    cases err with
    | none => exact ⟨_, _, [], [], rfl, by simp, by simp, by simp, by simp⟩
    | some e => exact ⟨_, _, [], [], rfl, by simp, by simp, by simp, by simp⟩
  | line l =>
    by_cases h₁ : l = ""
    · simp only [loopIteration, h₁, if_true]
      exact ⟨_, _, [], [], rfl, by simp, by simp, by simp, by simp⟩
    · by_cases h₂ : l = "END"
      · simp only [loopIteration, h₁, h₂, if_true, if_false]
        exact ⟨_, _, [], [], rfl, by simp, by simp, by simp, by simp⟩
      · cases hb : backend s.calls.length
            (generateRequest systemPrompt configContent tool0 (s.messages ++ [userMessage l])) with
        | error e =>
          simp only [loopIteration, h₁, h₂, hb, if_false]
          exact ⟨_, _, [userMessage l], [_], rfl, rfl, by simp [userMessage], rfl,
            by simp [generateRequest]⟩
        | ok resp =>
          simp only [loopIteration, h₁, h₂, hb, if_false]
          exact ⟨_, _, [userMessage l, modelMessage resp.text], [_], rfl, by simp,
            by simp [userMessage, modelMessage], rfl, by simp [generateRequest]⟩

theorem conversationLoop_ok_calls (systemPrompt configContent : String) (tool0 : Tool)
    (rest : List Tool) (backend : Backend) (eofErr : Option GoError) (lines : List String) :
    ∀ s : Session, ∃ sf added sent,
      conversationLoop systemPrompt configContent (tool0 :: rest) backend eofErr s lines = .ok sf
        ∧ sf.messages = s.messages ++ added
        ∧ (∀ m ∈ added, m.role = .user ∨ m.role = .model)
        ∧ sf.calls = s.calls ++ sent
        ∧ ∀ r ∈ sent, r.system = systemPrompt ++ "\n\nConfig File:\n" ++ configContent
            ∧ r.tools = [tool0] := by
  induction lines with
  | nil =>
    intro s
    obtain ⟨n, s₁, added, sent, h, hm, hr, hc, hs⟩ :=
      loopIteration_ok_calls systemPrompt configContent tool0 rest backend s (.eof eofErr)
    exact ⟨s₁, added, sent, by simp [conversationLoop, h], hm, hr, hc, hs⟩
  | cons l ls ih =>
    intro s
    obtain ⟨n, s₁, added, sent, h, hm, hr, hc, hs⟩ :=
      loopIteration_ok_calls systemPrompt configContent tool0 rest backend s (.line l)
    cases n with
    | done => exact ⟨s₁, added, sent, by simp [conversationLoop, h], hm, hr, hc, hs⟩
    | again =>
      obtain ⟨sf, added₂, sent₂, hf, hm₂, hr₂, hc₂, hs₂⟩ := ih s₁
      refine ⟨sf, added ++ added₂, sent ++ sent₂, by simp [conversationLoop, h, hf],
        by rw [hm₂, hm, List.append_assoc], ?_, by rw [hc₂, hc, List.append_assoc], ?_⟩
      · intro m hmem
        rcases List.mem_append.1 hmem with hmem | hmem
        · exact hr m hmem
        · exact hr₂ m hmem
      · intro r hmem
        rcases List.mem_append.1 hmem with hmem | hmem
        · exact hs r hmem
        · exact hs₂ r hmem

theorem toolResultCount_append_of_roles (ms added : List Message)
    (h : ∀ m ∈ added, m.role = .user ∨ m.role = .model) :
    toolResultCount (ms ++ added) = toolResultCount ms := by
  have : added.filter (fun m => m.role == .tool) = [] := by
    rw [List.filter_eq_nil_iff]
    intro m hm
    rcases h m hm with h | h <;> simp [h]
  simp [toolResultCount, List.filter_append, this]


/-- C11: the claim is that every request carries the full history and the
full tool catalog; the code sends the full history but one tool. On a line
that is neither empty nor `END`, with the tool set of a working catalog, the
request holds the history with the new user message at its end and the
single tool `tools[0]`: fewer tools than the tool set, and never both local
tools. -/
theorem C11_request_carries_only_first_tool (systemPrompt configContent : String)
    (ts : List Tool) (backend : Backend) (s : Session) (l : String)
    (hne : l ≠ "") (hend : l ≠ "END") :
    ∃ tool0 s₁ req,
      (AllOrpheusTools (.tools ts)).head? = some tool0
        ∧ loopIteration systemPrompt configContent (AllOrpheusTools (.tools ts)) backend s
            (.line l) = .ok (.again, s₁)
        ∧ s₁.calls = s.calls ++ [req]
        ∧ req.messages = s.messages ++ [userMessage l]
        ∧ req.tools = [tool0]
        ∧ req.tools.length < (AllOrpheusTools (.tools ts)).length
        ∧ (gcloudTool ∉ req.tools ∨ linuxTool ∉ req.tools) := by
  have hshape : ∃ tool0 rest, AllOrpheusTools (.tools ts) = tool0 :: rest ∧ 1 ≤ rest.length := by
    cases ts with
    | nil => exact ⟨gcloudTool, [linuxTool], rfl, by simp⟩
    | cons t ts => exact ⟨t, ts ++ [gcloudTool, linuxTool], by simp [AllOrpheusTools], by simp⟩
  obtain ⟨tool0, rest, htools, hrest⟩ := hshape
  have hmiss : gcloudTool ∉ [tool0] ∨ linuxTool ∉ [tool0] := by
    by_cases h : tool0 = gcloudTool
    · right
      subst h
      decide
    · left
      simpa using fun h₂ : gcloudTool = tool0 => h h₂.symm
  rw [htools]
  cases hb : backend s.calls.length
      (generateRequest systemPrompt configContent tool0 (s.messages ++ [userMessage l])) with
  | error e =>
    simp only [loopIteration, hne, hend, hb, if_false]
    exact ⟨tool0, _, _, rfl, rfl, rfl, rfl, rfl, by simp [generateRequest]; omega, hmiss⟩
  | ok resp =>
    simp only [loopIteration, hne, hend, hb, if_false]
    exact ⟨tool0, _, _, rfl, rfl, rfl, rfl, rfl, by simp [generateRequest]; omega, hmiss⟩

/-- Witness of C11: the catalog answers with no tool; the request for a
health check carries the gcloud tool and not the linux tool. -/
theorem C11_request_carries_only_first_tool_witness :
    ∃ tool0 s₁ req,
      (AllOrpheusTools (.tools [])).head? = some tool0
        ∧ loopIteration "sys" "cfg" (AllOrpheusTools (.tools []))
            (fun _ _ => .ok { text := "ok" }) (Session.initial []) (.line "health check")
            = .ok (.again, s₁)
        ∧ s₁.calls = (Session.initial []).calls ++ [req]
        ∧ req.messages = (Session.initial []).messages ++ [userMessage "health check"]
        ∧ req.tools = [tool0]
        ∧ req.tools.length < (AllOrpheusTools (.tools [])).length
        ∧ (gcloudTool ∉ req.tools ∨ linuxTool ∉ req.tools) :=
  C11_request_carries_only_first_tool "sys" "cfg" [] (fun _ _ => .ok { text := "ok" })
    (Session.initial []) "health check" (by decide) (by decide)

/-- C12, as stated, fails: in a turn during which one tool ran inside the
backend call, the history afterwards holds the user message and the model
message, and no tool-result message. -/
theorem C12_counterexample :
    loopIteration "sys" "cfg" [gcloudTool, linuxTool]
        (fun _ _ => .ok { text := "Your project is demo.",
                          toolResults := [{ role := .tool, content := [{ text := "demo\n" }] }] })
        (Session.initial []) (.line "which project")
      = .ok (.again,
          { messages := [userMessage "which project", modelMessage "Your project is demo."],
            calls := [generateRequest "sys" "cfg" gcloudTool [userMessage "which project"]],
            out := [.stderr "> ", .stdout "Your project is demo.\n"] })
      ∧ toolResultCount [userMessage "which project", modelMessage "Your project is demo."] = 0
      ∧ toolResultCount [userMessage "which project", modelMessage "Your project is demo."]
          ≠ ([{ role := .tool, content := [{ text := "demo\n" }] }] : List Message).length := by
  refine ⟨rfl, by decide, by decide⟩

/-- C12 (amended): the loop appends no tool-result message. An iteration
appends only user and model messages, so it leaves the number of tool-result
messages of the history unchanged, whatever tool results the backend call
produced; the same holds for the whole loop, and a session started from the
empty history ends with none. -/
theorem C12_no_tool_result_appended (systemPrompt configContent : String) (tool0 : Tool)
    (rest : List Tool) (backend : Backend) (eofErr : Option GoError) (s : Session) :
    (∀ input, ∃ n s₁ added,
        loopIteration systemPrompt configContent (tool0 :: rest) backend s input = .ok (n, s₁)
          ∧ s₁.messages = s.messages ++ added
          ∧ (∀ m ∈ added, m.role = .user ∨ m.role = .model)
          ∧ toolResultCount s₁.messages = toolResultCount s.messages)
      ∧ (∀ lines, ∃ sf,
          conversationLoop systemPrompt configContent (tool0 :: rest) backend eofErr s lines
            = .ok sf
          ∧ toolResultCount sf.messages = toolResultCount s.messages)
      ∧ (∀ lines out, ∃ sf,
          conversationLoop systemPrompt configContent (tool0 :: rest) backend eofErr
            (Session.initial out) lines = .ok sf
          ∧ ∀ m ∈ sf.messages, m.role ≠ .tool) := by
  refine ⟨?_, ?_, ?_⟩
  · intro input
    obtain ⟨n, s₁, added, sent, h, hm, hr, _, _⟩ :=
      loopIteration_ok_calls systemPrompt configContent tool0 rest backend s input
    exact ⟨n, s₁, added, h, hm, hr, by rw [hm, toolResultCount_append_of_roles _ _ hr]⟩
  · intro lines
    obtain ⟨sf, added, sent, h, hm, hr, _, _⟩ :=
      conversationLoop_ok_calls systemPrompt configContent tool0 rest backend eofErr lines s
    exact ⟨sf, h, by rw [hm, toolResultCount_append_of_roles _ _ hr]⟩
  · intro lines out
    obtain ⟨sf, added, sent, h, hm, hr, _, _⟩ :=
      conversationLoop_ok_calls systemPrompt configContent tool0 rest backend eofErr lines
        (Session.initial out)
    refine ⟨sf, h, ?_⟩
    intro m hmem
    rw [hm] at hmem
    simp only [Session.initial, List.nil_append] at hmem
    rcases hr m hmem with h | h <;> simp [h]


theorem startup_ok_tools (env : StartupEnv) (st : Started) (h : startup env = .ok st) :
    ∃ tool0 rest, st.tools = tool0 :: rest := by
  obtain ⟨configFile, dotenv, genkitInit, remote⟩ := env
  cases configFile with
  | error e => simp [startup] at h
  | ok config =>
    cases genkitInit with
    | some e => simp [startup] at h
    | none =>
      cases hA : AllOrpheusTools remote with
      | nil => simp [startup, hA] at h
      | cons t ts =>
        simp only [startup, hA] at h
        injection h with h
        subst h
        exact ⟨t, ts, rfl⟩

theorem directive_eq (render : Tool → String) (tools : List Tool) (c : String)
    (tool0 : Tool) (msgs : List Message) :
    (generateRequest (buildSystemPrompt render tools c) c tool0 msgs).system
      = preamble ++ String.join (tools.map (toolLine render)) ++ guidelines ++ c
          ++ ("\n\nConfig File:\n" ++ c) := by
  simp only [generateRequest, buildSystemPrompt, foldl_toolLine, String.append_assoc]

/-- C13, as stated, fails: for the two local tools and the configuration
`project: demo`, whatever the tool lines hold, the text handed to the backend
call is not the preamble, the tool lines, the guidelines and the
configuration; more text follows the configuration. -/
theorem C13_counterexample :
    ¬ ∃ render : Tool → String,
      (generateRequest (buildSystemPrompt render [gcloudTool, linuxTool] "project: demo")
          "project: demo" gcloudTool [userMessage "start"]).system
        = preamble ++ String.join ([gcloudTool, linuxTool].map (toolLine render))
            ++ guidelines ++ "project: demo" := by
  rintro ⟨render, h⟩
  rw [directive_eq] at h
  exact append_ne_self _ _ (by decide) h

/-- C13 (amended): the text `main` hands to the backend call as system
directive is the preamble, one line per tool in tool-list order that starts
with the tool name, the guidelines, the configuration text, and then an empty
line, the line `Config File:` and the configuration text a second time.
Every call that `main` makes during a session is handed that same text, so
the backend receives the same directive, the rendering of that text, on
every turn; and when the rendering leaves text without `%` unchanged and the
text has no `%`, what the backend receives is that text itself. -/
theorem C13_directive_text (render : Tool → String) (format : String → String)
    (env : StartupEnv) (st : Started) (backend : Backend) (eofErr : Option GoError)
    (lines : List String) (h : startup env = .ok st) :
    (∀ tool0 msgs,
        (generateRequest (buildSystemPrompt render st.tools st.configContent) st.configContent
            tool0 msgs).system
          = preamble ++ String.join (st.tools.map (toolLine render)) ++ guidelines
              ++ st.configContent ++ ("\n\nConfig File:\n" ++ st.configContent))
      ∧ (∀ tool, toolLine render tool
          = "- " ++ tool.name ++ ": Use this tool when you need to " ++ render tool ++ "\n")
      ∧ ∃ sf, main render env backend eofErr lines = .ok sf
          ∧ (∀ r ∈ sf.calls,
              r.system = preamble ++ String.join (st.tools.map (toolLine render)) ++ guidelines
                ++ st.configContent ++ ("\n\nConfig File:\n" ++ st.configContent)
              ∧ directiveReceived format r
                = format (preamble ++ String.join (st.tools.map (toolLine render)) ++ guidelines
                    ++ st.configContent ++ ("\n\nConfig File:\n" ++ st.configContent)))
          ∧ ((∀ t : String, '%' ∉ t.data → format t = t) →
              '%' ∉ (preamble ++ String.join (st.tools.map (toolLine render)) ++ guidelines
                ++ st.configContent ++ ("\n\nConfig File:\n" ++ st.configContent)).data →
              ∀ r ∈ sf.calls,
                directiveReceived format r
                  = preamble ++ String.join (st.tools.map (toolLine render)) ++ guidelines
                    ++ st.configContent ++ ("\n\nConfig File:\n" ++ st.configContent)) := by
  refine ⟨fun tool0 msgs => directive_eq render st.tools st.configContent tool0 msgs,
    fun _ => rfl, ?_⟩
  obtain ⟨tool0, rest, htools⟩ := startup_ok_tools env st h
  obtain ⟨sf, added, sent, hf, _, _, hc, hs⟩ :=
    conversationLoop_ok_calls (buildSystemPrompt render st.tools st.configContent)
      st.configContent tool0 rest backend eofErr lines
      (Session.initial (st.out ++ [.stderr "Enter prompts (type END to exit):\n"]))
  have hsys : ∀ r ∈ sf.calls,
      r.system = preamble ++ String.join (st.tools.map (toolLine render)) ++ guidelines
        ++ st.configContent ++ ("\n\nConfig File:\n" ++ st.configContent) := by
    intro r hr
    rw [hc] at hr
    simp only [Session.initial, List.nil_append] at hr
    rw [(hs r hr).1]
    have e := directive_eq render st.tools st.configContent tool0 []
    simpa [generateRequest] using e
  refine ⟨sf, by simp only [main, h, htools] at hf ⊢; exact hf, ?_, ?_⟩
  · intro r hr
    exact ⟨hsys r hr, by rw [directiveReceived, hsys r hr]⟩
  · intro hfmt hfree r hr
    rw [directiveReceived, hsys r hr]
    exact hfmt _ hfree

/-- Witness of C13: a session of two questions with the catalog answering
with no tool. -/
theorem C13_directive_text_witness :
    ∃ sf, main Tool.description (StartupEnv.mk (.ok "project: demo") none none (.tools []))
        (fun _ _ => .ok { text := "ok" }) none ["start", "status", "END"] = .ok sf
      ∧ ∀ r ∈ sf.calls,
          r.system = preamble
            ++ String.join ([gcloudTool, linuxTool].map (toolLine Tool.description))
            ++ guidelines ++ "project: demo" ++ ("\n\nConfig File:\n" ++ "project: demo")
          ∧ directiveReceived (fun t => t) r = preamble
            ++ String.join ([gcloudTool, linuxTool].map (toolLine Tool.description))
            ++ guidelines ++ "project: demo" ++ ("\n\nConfig File:\n" ++ "project: demo") :=
  have h := (C13_directive_text Tool.description (fun t => t)
    (StartupEnv.mk (.ok "project: demo") none none (.tools []))
    { configContent := "project: demo", tools := [gcloudTool, linuxTool],
      out := [.stdout "execute_gcloud_command\n"] }
    (fun _ _ => .ok { text := "ok" }) none ["start", "status", "END"] rfl).2.2
  h.elim fun sf hsf => ⟨sf, hsf.1, hsf.2.1⟩

/-- C14, as stated, fails: when the list returned by `GetActiveTools` holds
two tools named `github_dup`, both stay in the tool set. -/
theorem C14_counterexample :
    AllOrpheusTools (.tools [Tool.mk "github_dup" "first" .remote,
        Tool.mk "github_dup" "first" .remote])
      = [Tool.mk "github_dup" "first" .remote, Tool.mk "github_dup" "first" .remote,
         gcloudTool, linuxTool]
      ∧ ¬ ((AllOrpheusTools (.tools [Tool.mk "github_dup" "first" .remote,
            Tool.mk "github_dup" "first" .remote])).map Tool.name).Nodup := by
  refine ⟨rfl, by decide⟩

/-- C14 (amended): for a list returned by `GetActiveTools`, whose tools are
named `github_` followed by the remote name, the tool set is that list,
unchanged and in order, followed by the gcloud tool and the linux tool. No
name in the list equals the name of a local tool, and the names of the tool
set are pairwise distinct exactly when the names in the list are. -/
theorem C14_merge_appends_local_tools (ts : List Tool)
    (hns : ∀ t ∈ ts, ∃ base : String, t.name = "github_" ++ base) :
    AllOrpheusTools (.tools ts) = ts ++ [gcloudTool, linuxTool]
      ∧ (∀ t ∈ ts, t.name ≠ "execute_gcloud_command" ∧ t.name ≠ "execute_linux_command")
      ∧ (((AllOrpheusTools (.tools ts)).map Tool.name).Nodup ↔ (ts.map Tool.name).Nodup) := by
  have h : AllOrpheusTools (.tools ts) = ts ++ [gcloudTool, linuxTool] := by
    simp [AllOrpheusTools]
  have hne : ∀ t ∈ ts, t.name ≠ "execute_gcloud_command" ∧ t.name ≠ "execute_linux_command" := by
    intro t ht
    obtain ⟨base, hb⟩ := hns t ht
    constructor
    · intro hc
      have hd := congrArg String.data (hb.symm.trans hc)
      simp [String.data_append] at hd
    · intro hc
      have hd := congrArg String.data (hb.symm.trans hc)
      simp [String.data_append] at hd
  refine ⟨h, hne, ?_⟩
  rw [h, List.map_append, List.nodup_append]
  have hn : ([gcloudTool, linuxTool].map Tool.name).Nodup := by decide
  constructor
  · rintro ⟨h₁, _, _⟩
    exact h₁
  · intro h₁
    refine ⟨h₁, hn, ?_⟩
    intro a ha hb
    obtain ⟨t, ht, rfl⟩ := List.mem_map.1 ha
    simp [gcloudTool, linuxTool] at hb
    rcases hb with hb | hb
    · exact (hne t ht).1 hb
    · exact (hne t ht).2 hb

/-- Witness of C14: the catalog answers with two tools. -/
theorem C14_merge_appends_local_tools_witness :
    AllOrpheusTools (.tools [Tool.mk "github_list_repos" "List repositories" .remote,
        Tool.mk "github_get_issue" "Get an issue" .remote])
      = [Tool.mk "github_list_repos" "List repositories" .remote,
         Tool.mk "github_get_issue" "Get an issue" .remote] ++ [gcloudTool, linuxTool] :=
  (C14_merge_appends_local_tools
    [Tool.mk "github_list_repos" "List repositories" .remote,
     Tool.mk "github_get_issue" "Get an issue" .remote]
    (by
      intro t ht
      simp only [List.mem_cons, List.mem_singleton, List.not_mem_nil, or_false] at ht
      rcases ht with rfl | rfl
      · exact ⟨"list_repos", by decide⟩
      · exact ⟨"get_issue", by decide⟩)).1

/-- C15: on a command whose first token is `gcloud` the two handlers print
the same line, run the same single command and return the same result;
when the process succeeds neither returns an error, and when it fails with
`e` both return an error wrapping `e` whose text is the fixed words
`gcloud command error: ` or `linux command error: ` followed by one and the
same text, made of the text of `e` and the captured output. -/
theorem C15_gcloud_is_restricted_linux (exec : Exec) (command : String) (args : List String)
    (h : Fields command = "gcloud" :: args) :
    (gcloudHandler exec command).started = [("gcloud", args)]
      ∧ (linuxHandler exec command).started = [("gcloud", args)]
      ∧ (gcloudHandler exec command).printed = (linuxHandler exec command).printed
      ∧ (gcloudHandler exec command).result = (linuxHandler exec command).result
      ∧ ((exec "gcloud" args).err = none →
          (gcloudHandler exec command).err = none
            ∧ (linuxHandler exec command).err = none
            ∧ (gcloudHandler exec command).result = (exec "gcloud" args).output)
      ∧ (∀ e, (exec "gcloud" args).err = some e →
          ∃ ge le, (gcloudHandler exec command).err = some ge
            ∧ (linuxHandler exec command).err = some le
            ∧ ge.Unwrap = some e ∧ le.Unwrap = some e
            ∧ ge.Error = "gcloud command error: "
                ++ (e.Error ++ "\nOutput: " ++ (exec "gcloud" args).output)
            ∧ le.Error = "linux command error: "
                ++ (e.Error ++ "\nOutput: " ++ (exec "gcloud" args).output)) := by
  cases hr : (exec "gcloud" args).err with
  | none =>
    refine ⟨by simp [gcloudHandler, h, hr], by simp [linuxHandler, h, hr],
      by simp [gcloudHandler, linuxHandler, h, hr],
      by simp [gcloudHandler, linuxHandler, h, hr], ?_, ?_⟩
    · intro _
      exact ⟨by simp [gcloudHandler, h, hr], by simp [linuxHandler, h, hr],
        by simp [gcloudHandler, h, hr]⟩
    · intro e he
      cases he
  | some e₀ =>
    refine ⟨by simp [gcloudHandler, h, hr], by simp [linuxHandler, h, hr],
      by simp [gcloudHandler, linuxHandler, h, hr],
      by simp [gcloudHandler, linuxHandler, h, hr], ?_, ?_⟩
    · intro he
      cases he
    · intro e he
      injection he with he
      subst he
      refine ⟨.wrapError ("gcloud command error: " ++ e₀.Error ++ "\nOutput: "
          ++ (exec "gcloud" args).output) e₀,
        .wrapError ("linux command error: " ++ e₀.Error ++ "\nOutput: "
          ++ (exec "gcloud" args).output) e₀,
        by simp [gcloudHandler, h, hr], by simp [linuxHandler, h, hr], rfl, rfl, ?_, ?_⟩
      · simp [GoError.Error, String.append_assoc]
      · simp [GoError.Error, String.append_assoc]

/-- Witness of C15: `gcloud nosuch` fails with exit status 1. -/
theorem C15_gcloud_is_restricted_linux_witness :
    (gcloudHandler (fun _ _ => ⟨"ERROR: invalid choice\n", some (.errorString "exit status 1"), true⟩)
        "gcloud nosuch").started = [("gcloud", ["nosuch"])]
      ∧ (linuxHandler (fun _ _ => ⟨"ERROR: invalid choice\n", some (.errorString "exit status 1"), true⟩)
        "gcloud nosuch").started = [("gcloud", ["nosuch"])] :=
  have h := C15_gcloud_is_restricted_linux
    (fun _ _ => ⟨"ERROR: invalid choice\n", some (.errorString "exit status 1"), true⟩)
    "gcloud nosuch" ["nosuch"] (by decide)
  ⟨h.1, h.2.1⟩

end Orpheus
